import Mathlib

/-!
Shallow embedding of the PCCArena experiment-orchestration core
(src/utils/processing.py, src/algs_wrapper/base.py, src/algs_wrapper/PCGCv1.py,
src/algs_wrapper/GPCC.py), together with theorems settling the design
specification's claims about it.

Conventions used throughout the embedding:

* A raised Python exception is an `Except PyErr` error value (or an
  `Option PyErr` field of a result record when the surrounding code also has
  observable effects to report).
* External effects that are outside the program (actual subprocess spawning,
  wall-clock timing, the GPU probe, the directory listing seen by a glob) enter
  as parameters of the embedded functions; each embedded function then performs
  exactly the control flow the Python source performs on those outcomes.
* The filesystem directory tree is an explicit list of directory paths threaded
  through the functions that call `mkdir`.
-/

/-- Python exception classes that the embedded code can raise:
`AssertionError` (from the bare `assert` in `GPCC.encode`/`GPCC.decode`),
`AttributeError` (reading a missing attribute), `ValueError` (raised by
`parallel` when no GPU is available), and `FileNotFoundError` (raised by
`subprocess.run` when the executable does not exist). -/
inductive PyErr
  | assertionError
  | attributeError
  | valueError
  | fileNotFoundError
deriving DecidableEq

deriving instance DecidableEq for Except

/-- Outcome of a completed subprocess as `subprocess.run` returns it:
exit code plus captured output streams (already decoded to text). -/
structure CompletedProcess where
  returncode : Int
  stdout : String
  stderr : String
deriving DecidableEq

/-- Observable outcome of `execute_cmd` (src/utils/processing.py lines 31-60):
the value returned to the caller (or the exception escaping it), the info-level
log entry emitted on failure, and the lines printed to standard output. -/
structure ExecResult where
  ret : Except PyErr Bool
  logged : Option String
  printed : List String
deriving DecidableEq

/-- The info-level log message of `execute_cmd` on a nonzero exit code:
the source builds the command line as `''.join(str(s)+' ' for s in cmd)`. -/
def loggedCmdLine (cmd : List String) : String :=
  "The stdout and stderr of executed command: "
    ++ String.join (cmd.map (fun s => s ++ " "))

/-- Embedding of `execute_cmd` (src/utils/processing.py lines 31-60).
`spawn` is the outcome of the `sp.run(cmd, capture_output=True, ...)` call:
either a `CompletedProcess` or an exception raised by the spawn itself (for
example `FileNotFoundError` when the executable is missing).  The source wraps
only the `assert ret.returncode == 0` in `try/except AssertionError`, so a
spawn exception propagates to the caller; on a nonzero exit code the command
line is logged, the captured streams are printed, and `False` is returned;
on exit code zero `True` is returned. -/
def execute_cmd (cmd : List String) (spawn : Except PyErr CompletedProcess) :
    ExecResult :=
  match spawn with
  | .error e => { ret := .error e, logged := none, printed := [] }
  | .ok r =>
    if r.returncode = 0 then
      { ret := .ok true, logged := none, printed := [] }
    else
      { ret := .ok false
        logged := some (loggedCmdLine cmd)
        printed := ["\n " ++ r.stdout, "\n " ++ r.stderr] }

/-- Embedding of `GPCC.encode` / `GPCC.decode` (src/algs_wrapper/GPCC.py):
each runs `assert execute_cmd(cmd, ...)`, so a `False` return becomes a raised
`AssertionError` and an exception from `execute_cmd` propagates unchanged. -/
def GPCC.codecStep (exec : ExecResult) : Except PyErr Unit :=
  match exec.ret with
  | .error e => .error e
  | .ok true => .ok ()
  | .ok false => .error .assertionError

/-- One GPU as seen by the `GPUtil.getAvailable` probe: device id, current
load, and current memory utilization (both fractions in `[0, 1]`). -/
structure GPU where
  id : Nat
  load : ℚ
  memoryUtil : ℚ
deriving DecidableEq

/-- Embedding of the `GPUtil.getAvailable(order='first', limit=8, maxLoad=0.5,
maxMemory=0.2, ...)` probe called by `parallel` (src/utils/processing.py lines
83-91): of the devices in id order, keep those with load at most 1/2 and
memory utilization at most 1/5, and return at most the first 8 of them. -/
def getAvailable (gpus : List GPU) : List Nat :=
  ((gpus.filter
      (fun g => decide (g.load ≤ 1/2) && decide (g.memoryUtil ≤ 1/5))).take
    8).map GPU.id

/-- How the worker pool was created: `Pool(None)` (the CPU-count default used
when `use_gpu` is false) or `Pool(n)` for an explicit worker count `n`. -/
inductive PoolSpawn
  | default
  | sized (n : Nat)
deriving DecidableEq

/-- Observable outcome of one `parallel` dispatch: how the pool was spawned
(`none` when the dispatch raised before creating any pool), the items whose
job was actually invoked, and the exception escaping the dispatch, if any. -/
structure DispatchResult (α : Type) where
  pool : Option PoolSpawn
  processed : List α
  exc : Option PyErr
deriving DecidableEq

/-- The pool body of `parallel`:
`list(tqdm(pool.imap_unordered(func, filelist), total=len(filelist)))`.
`imap_unordered` re-raises a job's exception in the parent when the parent
consumes that job's result; the `list(...)` call therefore raises at the first
failed item, and leaving the `with Pool(...)` block then terminates the pool,
discarding the work not yet done.  The model serializes the pool as a single
worker consuming the items in list order — the schedule in which every item
after the raising one is discarded. -/
def poolRun {α : Type} (job : α → Except PyErr Unit) :
    List α → List α × Option PyErr
  | [] => ([], none)
  | x :: xs =>
    match job x with
    | .error e => ([x], some e)
    | .ok _ =>
      let r := poolRun job xs
      (x :: r.1, r.2)

/-- Embedding of `parallel` (src/utils/processing.py lines 62-104).  `job`
maps an item to the observable outcome of running the bound job function on it
(`.ok ()` when the job returns, `.error e` when it raises `e`); `gpus` is the
device state the `GPUtil` probe sees.  With `use_gpu` the qualifying-device
count is computed first and a bare `ValueError` is raised before any pool is
created when it is zero; otherwise the pool is sized by that count.  Without
`use_gpu` the pool is `Pool(None)`. -/
def parallel {α : Type} (job : α → Except PyErr Unit) (filelist : List α)
    (use_gpu : Bool) (gpus : List GPU) : DispatchResult α :=
  if use_gpu then
    let deviceIDs := getAvailable gpus
    let process := deviceIDs.length
    if process ≤ 0 then
      { pool := none, processed := [], exc := some .valueError }
    else
      let r := poolRun job filelist
      { pool := some (.sized process), processed := r.1, exc := r.2 }
  else
    let r := poolRun job filelist
    { pool := some .default, processed := r.1, exc := r.2 }

/-- A POSIX path, as its list of components below the filesystem root.
All directories handed to the pipeline are absolute, so `["data", "src"]`
stands for `/data/src`; `pathlib.Path.joinpath` on a relative right operand is
list append. -/
abbrev PyPath := List String

/-- Render a `PyPath` back to its absolute POSIX string form. -/
def renderPath (p : PyPath) : String :=
  p.foldl (fun acc c => acc ++ "/" ++ c) ""

/-- Index of the last `'.'` in a list of characters, if any
(`str.rfind('.')` in the pathlib source). -/
def rfindDotAux : List Char → Nat → Option Nat → Option Nat
  | [], _, best => best
  | c :: cs, i, best =>
    rfindDotAux cs (i + 1) (if c = '.' then some i else best)

/-- Length of the `pathlib.PurePath.suffix` of a file name: with `i` the index
of the last dot, the suffix is `name[i:]` when `0 < i < len(name) - 1` and
empty otherwise (no dot, a leading dot, or a trailing dot). -/
def nameSuffixLen (name : String) : Nat :=
  let cs := name.data
  match rfindDotAux cs 0 none with
  | some i => if 0 < i && i + 1 < cs.length then cs.length - i else 0
  | none => 0

/-- The `pathlib.PurePath.stem` of a file name: the name with its suffix
removed. -/
def nameStem (name : String) : String :=
  ⟨name.data.take (name.data.length - nameSuffixLen name)⟩

/-- `pathlib.PurePath.with_suffix` on a file name: in both the has-a-suffix
and the no-suffix case the result is the stem followed by the new suffix
(the call sites always pass a new suffix starting with a dot). -/
def withSuffixName (name suffix : String) : String :=
  nameStem name ++ suffix

/-- `with_suffix` lifted to a path: replace the suffix of the last
component. -/
def withSuffix (p : PyPath) (s : String) : PyPath :=
  match p.getLast? with
  | some n => p.dropLast ++ [withSuffixName n s]
  | none => p

/-- The `stem` of a path's last component. -/
def pathStem (p : PyPath) : String :=
  match p.getLast? with
  | some n => nameStem n
  | none => ""

/-- The filesystem's directory tree, as the list of directories that exist. -/
abbrev FS := List PyPath

/-- All nonempty ancestor paths of `p`, `p` included, shortest first. -/
def ancestors (p : PyPath) : List PyPath :=
  (List.range p.length).map (fun i => p.take (i + 1))

/-- Embedding of `Path.mkdir(parents=True, exist_ok=True)`: create the
directory and every missing ancestor, and never fail when any of them already
exists. -/
def mkdir_parents (fs : FS) (p : PyPath) : FS :=
  (ancestors p).foldl (fun acc d => if d ∈ acc then acc else acc ++ [d]) fs

/-- The slice of the per-codec configuration that the embedded pipeline
reads: `self._algs_cfg['bin_suffix']`, the codec-specific suffix of the
compressed artifact. -/
structure AlgsCfg where
  bin_suffix : String
deriving DecidableEq

/-- Instance state of a `Base` codec plugin (src/algs_wrapper/base.py).
`_rate` is `none` while the instance attribute `self._rate` does not exist —
`Base.__init__` sets only `self._algs_cfg` and `self._use_gpu`, so a fresh
instance has no `_rate` attribute until a rate assignment completes. -/
structure BaseState where
  _algs_cfg : AlgsCfg
  _use_gpu : Bool
  _rate : Option String
deriving DecidableEq

/-- Embedding of `Base.__init__` (src/algs_wrapper/base.py lines 15-17): the
loaded config and the GPU flag are stored; no `_rate` attribute exists yet. -/
def Base.init (cfg : AlgsCfg) (use_gpu : Bool) : BaseState :=
  { _algs_cfg := cfg, _use_gpu := use_gpu, _rate := none }

/-- Embedding of the `Base.rate` property getter (src/algs_wrapper/base.py
lines 27-38): `return self._rate` raises `AttributeError` when the instance
attribute was never set. -/
def Base.rateGet (st : BaseState) : Except PyErr String :=
  match st._rate with
  | some r => .ok r
  | none => .error .attributeError

/-- True exactly on the characters the regex class `[1-9]` matches. -/
def isDigit19 (c : Char) : Bool :=
  '1' ≤ c && c ≤ '9'

/-- Match of the regex `r[1-9]+` anchored at the given position: an `'r'`
followed by one or more digits `1`-`9`, matched greedily. -/
def matchRate : List Char → Option (List Char)
  | 'r' :: rest =>
    let ds := rest.takeWhile isDigit19
    if ds.isEmpty then none else some ('r' :: ds)
  | _ => none

/-- Scan for a match of `^r[1-9]+` at the later line starts of the string:
under `re.MULTILINE` the anchor `^` also matches right after every newline. -/
def searchRateAux : List Char → Option (List Char)
  | [] => none
  | c :: rest =>
    if c = '\n' then
      match matchRate rest with
      | some m => some m
      | none => searchRateAux rest
    else
      searchRateAux rest

/-- Embedding of `re.search('^r[1-9]+', rate, re.MULTILINE)` in the rate
setter: try the start of the string first, then every position following a
newline, left to right, returning the leftmost match. -/
def reSearchRate (s : String) : Option String :=
  match matchRate s.data with
  | some m => some ⟨m⟩
  | none => (searchRateAux s.data).map (fun m => ⟨m⟩)

/-- Observable outcome of one `rate` setter call: the instance state after
the call, whether the invalid-rate warning was logged, and the exception
escaping the call, if any. -/
structure SetRateResult where
  state : BaseState
  warned : Bool
  exc : Option PyErr
deriving DecidableEq

/-- Embedding of the `Base.rate` property setter (src/algs_wrapper/base.py
lines 40-47).  The source logs the warning when the search fails but then
executes `self._rate = m.group()` unconditionally; with `m` being `None` that
raises `AttributeError` before any assignment happens, so on a failed search
the state is unchanged.  On a successful search the matched text is stored. -/
def Base.rateSet (st : BaseState) (rate : String) : SetRateResult :=
  match reSearchRate rate with
  | none => { state := st, warned := true, exc := some .attributeError }
  | some g => { state := { st with _rate := some g }, warned := false, exc := none }

/-- Embedding of the first statement of `Base.run_dataset`
(src/algs_wrapper/base.py line 70): `exp_dir = Path(exp_dir).joinpath(self._rate)`.
Reading `self._rate` raises `AttributeError` when the attribute was never
set; otherwise the experiment root is extended by the rate tag. -/
def Base.run_dataset_expDir (st : BaseState) (exp_dir : PyPath) :
    Except PyErr PyPath :=
  match st._rate with
  | some r => .ok (exp_dir ++ [r])
  | none => .error .attributeError

/-- Embedding of `Base.__set_filepath` (src/algs_wrapper/base.py lines
159-200): derive the five experiment paths from the item's relative path and
the three root directories, then create the parent directories of the
artifact, the reconstructed output, and the log (`mkdir(parents=True,
exist_ok=True)`).  Returns the path tuple and the updated directory tree. -/
def Base.set_filepath (cfg : AlgsCfg) (pcfile srcDir norDir expDir : PyPath)
    (fs : FS) : (PyPath × PyPath × PyPath × PyPath × PyPath) × FS :=
  let in_pcfile := srcDir ++ pcfile
  let nor_pcfile := norDir ++ pcfile
  let bin_file := withSuffix (expDir ++ ("bin" :: pcfile)) cfg.bin_suffix
  let out_pcfile := expDir ++ ("dec" :: pcfile)
  let evl_log := withSuffix (expDir ++ ("evl" :: pcfile)) ".log"
  let fs1 := mkdir_parents fs bin_file.dropLast
  let fs2 := mkdir_parents fs1 out_pcfile.dropLast
  let fs3 := mkdir_parents fs2 evl_log.dropLast
  ((in_pcfile, nor_pcfile, bin_file, out_pcfile, evl_log), fs3)

/-- Modelled from the spec: `glob_file` lives in `utils/file_io.py`, which is
not under `src/`.  Its call sites in `Base.run` and `PCGCv1.run` pass the
pattern `bin_file.stem + '*'` and the artifact's parent directory, and the
spec (section 3 "Compressed Artifact Set" and section 4.3 step 4) describes
the call as a stem-prefix glob under the artifact's parent directory: every
file of the directory whose name starts with the stem is returned.  `listing`
is the directory's content, `stem` the artifact's stem. -/
def glob_file (listing : List String) (stem : String) : List String :=
  listing.filter (fun n => stem.data.isPrefixOf n.data)

/-- Observable outcome of one `Base.run` job (src/algs_wrapper/base.py lines
100-157): how often `encode` and `decode` were invoked, the artifact-file list
handed to the Metrics Bridge (`none` when `ViewIndependentMetrics.evaluate`
was never reached), the evaluation-log path written (`none` when no log was
written), the artifact path the job computed, the exception escaping `run`,
and the directory tree after the job. -/
structure RunResult where
  encodeCalls : Nat
  decodeCalls : Nat
  metricsArg : Option (List String)
  logWritten : Option PyPath
  binFile : PyPath
  exc : Option PyErr
  fs : FS
deriving DecidableEq

/-- Embedding of `Base.run` (src/algs_wrapper/base.py lines 100-157).
`encRes` and `decRes` are the observable outcomes of the `self.encode` and
`self.decode` calls (`.ok ()` for a normal return, `.error e` for a raised
exception — `GPCC.codecStep` produces exactly these); `binDirListing` is the
content of the artifact's parent directory at glob time.  The `timer` wrapper
(src/utils/processing.py lines 12-29) invokes its operation exactly once and
catches nothing, so an exception raised inside `encode` ends `run` before
`decode`, and one raised inside `decode` ends `run` before the glob, the
metrics call, and the log write.  On success the glob by artifact stem is
computed, the Metrics Bridge is invoked with it, and the report is written to
the log path. -/
def Base.run (cfg : AlgsCfg) (encRes decRes : Except PyErr Unit)
    (pcfile srcDir norDir expDir : PyPath) (binDirListing : List String)
    (fs : FS) : RunResult :=
  let r := Base.set_filepath cfg pcfile srcDir norDir expDir fs
  let bin_file := r.1.2.2.1
  let evl_log := r.1.2.2.2.2
  let fs1 := r.2
  match encRes with
  | .error e =>
    { encodeCalls := 1, decodeCalls := 0, metricsArg := none,
      logWritten := none, binFile := bin_file, exc := some e, fs := fs1 }
  | .ok _ =>
    match decRes with
    | .error e =>
      { encodeCalls := 1, decodeCalls := 1, metricsArg := none,
        logWritten := none, binFile := bin_file, exc := some e, fs := fs1 }
    | .ok _ =>
      let bin_files := glob_file binDirListing (pathStem bin_file)
      { encodeCalls := 1, decodeCalls := 1, metricsArg := some bin_files,
        logWritten := some evl_log, binFile := bin_file, exc := none, fs := fs1 }

/-- The attribute names the class body of `Base` defines
(src/algs_wrapper/base.py): the double-underscore method `__set_filepath` is
stored under its name-mangled form `_Base__set_filepath`. -/
def Base.classAttrs : List String :=
  ["__init__", "encode", "decode", "rate", "run_dataset", "run",
   "_Base__set_filepath"]

/-- The attribute names the class body of `PCGCv1` defines
(src/algs_wrapper/PCGCv1.py). -/
def PCGCv1.classAttrs : List String :=
  ["__init__", "make_encode_cmd", "make_decode_cmd", "run"]

/-- Python attribute lookup over a method-resolution order given as the
concatenated attribute tables: a missing name raises `AttributeError`. -/
def getattrErr (attrs : List String) (n : String) : Except PyErr Unit :=
  if n ∈ attrs then .ok () else .error .attributeError

/-- Observable outcome of one `PCGCv1.run` job (src/algs_wrapper/PCGCv1.py
lines 43-127). -/
structure PCGCRunResult where
  encodeCalls : Nat
  decodeCalls : Nat
  logWritten : Option PyPath
  exc : Option PyErr
deriving DecidableEq

/-- Embedding of `PCGCv1.run` (src/algs_wrapper/PCGCv1.py lines 43-127).
After storing `scale` and `color` on the instance (lines 84-85), line 88
evaluates `self._set_filepath`: an attribute lookup through `PCGCv1` and
`Base`.  Neither class defines `_set_filepath` — `Base` defines the
name-mangled `_Base__set_filepath` — so the lookup raises `AttributeError`
there, before any command is built or run.  The remainder of the method
(lines 91-127, which would also look up the equally undefined
`self._run_command`) is unreachable; the embedding marks that branch by a
second lookup whose failure would likewise abort with no encode, no decode,
and no log. -/
def PCGCv1.run (pcfile srcDir norDir expDir : PyPath) (scale : Int)
    (color : Bool) : PCGCRunResult :=
  match getattrErr (PCGCv1.classAttrs ++ Base.classAttrs) "_set_filepath" with
  | .error e => { encodeCalls := 0, decodeCalls := 0, logWritten := none, exc := some e }
  | .ok _ =>
    match getattrErr (PCGCv1.classAttrs ++ Base.classAttrs) "_run_command" with
    | .error e => { encodeCalls := 0, decodeCalls := 0, logWritten := none, exc := some e }
    | .ok _ => { encodeCalls := 0, decodeCalls := 0, logWritten := none, exc := none }

/-- A concrete codec configuration with the artifact suffix `.bin`, used by
the concrete scenarios below. -/
def cfg0 : AlgsCfg := { bin_suffix := ".bin" }

/-- A concrete job that raises `AssertionError` on item `0` (as a `Base.run`
job does when its codec's `assert execute_cmd(...)` fails) and returns
normally on every other item. -/
def jobFail0 : Nat → Except PyErr Unit :=
  fun n => if n = 0 then .error .assertionError else .ok ()

/-- A concrete job that returns normally on every item. -/
def jobOk : Nat → Except PyErr Unit := fun _ => .ok ()

/-- The path tuple and directory tree produced by `Base.__set_filepath` for
the spec's end-to-end scenario: item `cube.ply`, source `/data/src`,
normal-bearing source `/data/nor`, experiment root `/exp/r1`, starting from
an empty directory tree. -/
def scenarioPaths :=
  Base.set_filepath cfg0 ["cube.ply"] ["data", "src"] ["data", "nor"]
    ["exp", "r1"] []

/-- Helper: when every item's job returns normally, the serialized pool
processes the whole list and re-raises nothing. -/
theorem poolRun_all_ok {α : Type} (job : α → Except PyErr Unit)
    (items : List α) (h : ∀ x ∈ items, job x = .ok ()) :
    poolRun job items = (items, none) := by
  induction items with
  | nil => rfl
  | cons x xs ih =>
    have hx := h x (List.mem_cons_self x xs)
    have hxs := ih (fun y hy => h y (List.mem_cons_of_mem x hy))
    simp [poolRun, hx, hxs]

/-- Claim C1, counterexample: the claim that one item's raised error does not
prevent the remaining items from being processed is false on the code.  With
the job that raises `AssertionError` on item `0`, dispatching `[0, 1]`
processes only item `0`: the exception is re-raised by the parent's result
iteration, the pool is torn down, item `1` is never run, and the error
escapes the dispatcher. -/
theorem parallel_job_exception_aborts_batch :
    (parallel jobFail0 [0, 1] false []).processed = [0] ∧
    1 ∉ (parallel jobFail0 [0, 1] false []).processed ∧
    (parallel jobFail0 [0, 1] false []).exc = some .assertionError := by
  decide

/-- Claim C1, amended: per-item failure containment holds exactly for
failures the job converts into a normal return (as `PCGCv1.run`'s silent
`return` on a failed command does).  Provided the dispatch does not fail for
lack of GPUs, if no item's job raises then every item is processed and the
dispatcher returns normally; a raised exception instead aborts the batch at
that item (see the counterexample). -/
theorem parallel_processes_all_when_jobs_return {α : Type}
    (job : α → Except PyErr Unit) (items : List α) (use_gpu : Bool)
    (gpus : List GPU)
    (hres : use_gpu = false ∨ getAvailable gpus ≠ [])
    (h : ∀ x ∈ items, job x = .ok ()) :
    (parallel job items use_gpu gpus).processed = items ∧
    (parallel job items use_gpu gpus).exc = none := by
  have hp := poolRun_all_ok job items h
  cases use_gpu with
  | false => simp [parallel, hp]
  | true =>
    rcases hres with h0 | hne
    · exact absurd h0 (by simp)
    · have hlen : ¬ (getAvailable gpus).length ≤ 0 := by
        simpa [Nat.le_zero, List.length_eq_zero] using hne
      simp [parallel, hlen, hp]

/-- Witness for the amended claim C1 at a concrete input: with the
always-returning job, both items of `[1, 2]` are processed. -/
theorem parallel_processes_all_when_jobs_return_witness :
    (parallel jobOk [1, 2] false []).processed = [1, 2] ∧
    (parallel jobOk [1, 2] false []).exc = none :=
  parallel_processes_all_when_jobs_return jobOk [1, 2] false []
    (Or.inl rfl) (fun _ _ => rfl)

/-- Claim C2: for every job whose encode step fails (the `self.encode` call
raises `e`, as `GPCC.encode` does on a failed command), `Base.run` ends with
that exception, never invokes `decode`, never reaches the Metrics Bridge, and
writes no evaluation log. -/
theorem run_encode_failure_skips_decode_and_log (cfg : AlgsCfg) (e : PyErr)
    (decRes : Except PyErr Unit) (pcfile srcDir norDir expDir : PyPath)
    (binDirListing : List String) (fs : FS) :
    (Base.run cfg (.error e) decRes pcfile srcDir norDir expDir binDirListing
        fs).decodeCalls = 0 ∧
    (Base.run cfg (.error e) decRes pcfile srcDir norDir expDir binDirListing
        fs).logWritten = none ∧
    (Base.run cfg (.error e) decRes pcfile srcDir norDir expDir binDirListing
        fs).metricsArg = none ∧
    (Base.run cfg (.error e) decRes pcfile srcDir norDir expDir binDirListing
        fs).exc = some e :=
  ⟨rfl, rfl, rfl, rfl⟩

/-- Claim C6: for every job whose encode step succeeds and whose decode step
fails (the `self.decode` call raises `e`), `Base.run` invokes `decode`
exactly once, never invokes the Metrics Bridge, writes no evaluation log, and
ends with that exception. -/
theorem run_decode_failure_skips_metrics_and_log (cfg : AlgsCfg) (e : PyErr)
    (pcfile srcDir norDir expDir : PyPath) (binDirListing : List String)
    (fs : FS) :
    (Base.run cfg (.ok ()) (.error e) pcfile srcDir norDir expDir
        binDirListing fs).decodeCalls = 1 ∧
    (Base.run cfg (.ok ()) (.error e) pcfile srcDir norDir expDir
        binDirListing fs).metricsArg = none ∧
    (Base.run cfg (.ok ()) (.error e) pcfile srcDir norDir expDir
        binDirListing fs).logWritten = none ∧
    (Base.run cfg (.ok ()) (.error e) pcfile srcDir norDir expDir
        binDirListing fs).exc = some e :=
  ⟨rfl, rfl, rfl, rfl⟩

/-- Claim C7: for every successful job, every file of the artifact's parent
directory whose name begins with the artifact's stem is in the artifact-file
list handed to the Metrics Bridge. -/
theorem run_success_metrics_gets_stem_siblings (cfg : AlgsCfg)
    (pcfile srcDir norDir expDir : PyPath) (binDirListing : List String)
    (fs : FS) (f : String) (hf : f ∈ binDirListing)
    (hpre : (pathStem (Base.run cfg (.ok ()) (.ok ()) pcfile srcDir norDir
        expDir binDirListing fs).binFile).data.isPrefixOf f.data = true) :
    ∃ bs,
      (Base.run cfg (.ok ()) (.ok ()) pcfile srcDir norDir expDir
          binDirListing fs).metricsArg = some bs ∧ f ∈ bs := by
  refine ⟨_, rfl, ?_⟩
  exact List.mem_filter.mpr ⟨hf, hpre⟩

/-- Witness for claim C7 at a concrete input: for the `cube.ply` job with
artifact `cube.bin`, the suffix-varying sibling `cube.bin.aux` present in the
artifact's directory reaches the Metrics Bridge. -/
theorem run_success_metrics_gets_stem_siblings_witness :
    "cube.bin.aux" ∈ ["cube.bin", "cube.bin.aux", "other.bin"] ∧
    ∃ bs,
      (Base.run cfg0 (.ok ()) (.ok ()) ["cube.ply"] ["data", "src"]
          ["data", "nor"] ["exp", "r1"] ["cube.bin", "cube.bin.aux", "other.bin"]
          []).metricsArg = some bs ∧ "cube.bin.aux" ∈ bs :=
  ⟨by decide,
   run_success_metrics_gets_stem_siblings cfg0 ["cube.ply"] ["data", "src"]
     ["data", "nor"] ["exp", "r1"] ["cube.bin", "cube.bin.aux", "other.bin"]
     [] "cube.bin.aux" (by decide) (by decide)⟩

/-- Claim C3: evaluating the rate setter at the failing input `"rate1"` and
at valid inputs.  On the non-matching string the warning is logged but the
setter then raises `AttributeError` (the source runs `self._rate = m.group()`
with `m = None` unconditionally) instead of returning with the tag unset as
the spec describes; on matching strings exactly the matched text is stored
(`"r1"` from `"r1"`, `"r12"` from `"r12x"`). -/
theorem rate_setter_invalid_warns_then_raises :
    (Base.rateSet (Base.init cfg0 false) "rate1").warned = true ∧
    (Base.rateSet (Base.init cfg0 false) "rate1").exc = some .attributeError ∧
    (Base.rateSet (Base.init cfg0 false) "rate1").state._rate = none ∧
    (Base.rateSet (Base.init cfg0 false) "r1").state._rate = some "r1" ∧
    (Base.rateSet (Base.init cfg0 false) "r1").warned = false ∧
    (Base.rateSet (Base.init cfg0 false) "r1").exc = none ∧
    (Base.rateSet (Base.init cfg0 false) "r12x").state._rate = some "r12" := by
  decide

/-- Claim C4: dispatching with the exclusive-resource flag set raises the
no-available-resource error (`ValueError`) before any pool is created when
zero devices qualify under the fixed policy, and otherwise sizes the worker
pool by the number of qualifying devices. -/
theorem parallel_gpu_exclusive_policy {α : Type}
    (job : α → Except PyErr Unit) (items : List α) (gpus : List GPU) :
    (getAvailable gpus = [] →
      parallel job items true gpus
        = { pool := none, processed := [], exc := some .valueError }) ∧
    (getAvailable gpus ≠ [] →
      (parallel job items true gpus).pool
        = some (.sized (getAvailable gpus).length)) := by
  constructor
  · intro h
    simp [parallel, h]
  · intro h
    have hlen : ¬ (getAvailable gpus).length ≤ 0 := by
      simpa [Nat.le_zero, List.length_eq_zero] using h
    simp [parallel, hlen]

/-- Witness for claim C4 at concrete inputs: with no device at all the
dispatch raises before creating a pool and processes nothing; with one idle
qualifying device the pool has exactly one worker. -/
theorem parallel_gpu_exclusive_policy_witness :
    parallel jobOk [1, 2] true []
      = { pool := none, processed := [], exc := some .valueError } ∧
    (parallel jobOk [1, 2] true [⟨0, 0, 0⟩]).pool = some (.sized 1) := by
  constructor
  · exact (parallel_gpu_exclusive_policy jobOk [1, 2] []).1 rfl
  · have h := (parallel_gpu_exclusive_policy jobOk [1, 2] [⟨0, 0, 0⟩]).2
      (by simp [getAvailable])
    simpa [getAvailable] using h

/-- Claim C5, counterexample: the claim that the Command Executor never lets
an exception past its boundary is false on the code.  When the spawn itself
fails (`subprocess.run` raising `FileNotFoundError` for a missing
executable), `execute_cmd` propagates the exception — the `try` block guards
only the exit-code assertion — so no boolean is returned. -/
theorem execute_cmd_spawn_error_escapes :
    (execute_cmd ["/nonexistent"] (.error .fileNotFoundError)).ret
      = .error .fileNotFoundError ∧
    ∀ b : Bool,
      (execute_cmd ["/nonexistent"] (.error .fileNotFoundError)).ret ≠ .ok b :=
  ⟨rfl, fun _ h => Except.noConfusion h⟩

/-- Claim C5, amended: whenever the subprocess is spawned successfully, the
Command Executor returns `true` iff the exit code is exactly zero, and on a
nonzero exit it logs the full command line, prints the captured streams, and
returns `false`; but an exception raised by the spawn itself propagates to
the caller. -/
theorem execute_cmd_exit_code_contract (cmd : List String)
    (r : CompletedProcess) (e : PyErr) :
    ((execute_cmd cmd (.ok r)).ret = .ok true ↔ r.returncode = 0) ∧
    (r.returncode ≠ 0 →
      (execute_cmd cmd (.ok r)).ret = .ok false ∧
      (execute_cmd cmd (.ok r)).logged = some (loggedCmdLine cmd) ∧
      (execute_cmd cmd (.ok r)).printed
        = ["\n " ++ r.stdout, "\n " ++ r.stderr]) ∧
    (execute_cmd cmd (.error e)).ret = .error e := by
  by_cases h : r.returncode = 0 <;> simp [execute_cmd, h]

/-- Witness for the amended claim C5 at the spec's scenario input: the
argument vector `["false"]` with exit code 1 yields `false` and a log entry
holding the full command line. -/
theorem execute_cmd_exit_code_contract_witness :
    (1 : Int) ≠ 0 ∧
    (execute_cmd ["false"] (.ok ⟨1, "out", "err"⟩)).ret = .ok false ∧
    (execute_cmd ["false"] (.ok ⟨1, "out", "err"⟩)).logged
      = some (loggedCmdLine ["false"]) :=
  ⟨by decide,
   ((execute_cmd_exit_code_contract ["false"] ⟨1, "out", "err"⟩
       .fileNotFoundError).2.1 (by decide)).1,
   ((execute_cmd_exit_code_contract ["false"] ⟨1, "out", "err"⟩
       .fileNotFoundError).2.1 (by decide)).2.1⟩

/-- Claim C8: the end-to-end path-resolution scenario.  `run_dataset` joins
the experiment root `/exp` with the active rate tag `r1`; for item `cube.ply`
with source `/data/src` and artifact suffix `.bin` the resolver yields input
`/data/src/cube.ply`, artifact `/exp/r1/bin/cube.bin`, reconstructed output
`/exp/r1/dec/cube.ply`, and log `/exp/r1/evl/cube.log`; the three destination
parent directories are created, and resolving again over the now-existing
directories returns the same paths and tree unchanged. -/
theorem path_resolution_scenario :
    Base.run_dataset_expDir ((Base.rateSet (Base.init cfg0 false) "r1").state)
        ["exp"] = .ok ["exp", "r1"] ∧
    renderPath scenarioPaths.1.1 = "/data/src/cube.ply" ∧
    renderPath scenarioPaths.1.2.2.1 = "/exp/r1/bin/cube.bin" ∧
    renderPath scenarioPaths.1.2.2.2.1 = "/exp/r1/dec/cube.ply" ∧
    renderPath scenarioPaths.1.2.2.2.2 = "/exp/r1/evl/cube.log" ∧
    ["exp", "r1", "bin"] ∈ scenarioPaths.2 ∧
    ["exp", "r1", "dec"] ∈ scenarioPaths.2 ∧
    ["exp", "r1", "evl"] ∈ scenarioPaths.2 ∧
    Base.set_filepath cfg0 ["cube.ply"] ["data", "src"] ["data", "nor"]
        ["exp", "r1"] scenarioPaths.2 = (scenarioPaths.1, scenarioPaths.2) := by
  decide

/-- Claim C9: for every input, `PCGCv1.run` raises `AttributeError` before
performing any encode, because the looked-up `_set_filepath` (and likewise
`_run_command`) is defined neither by `PCGCv1` nor by `Base` — `Base` only
defines the name-mangled `_Base__set_filepath` — so the variant never invokes
encode or decode and never writes an evaluation log. -/
theorem pcgcv1_run_raises_attribute_error (pcfile srcDir norDir expDir : PyPath)
    (scale : Int) (color : Bool) :
    PCGCv1.run pcfile srcDir norDir expDir scale color
      = { encodeCalls := 0, decodeCalls := 0, logWritten := none,
          exc := some .attributeError } ∧
    getattrErr (PCGCv1.classAttrs ++ Base.classAttrs) "_set_filepath"
      = .error .attributeError ∧
    getattrErr (PCGCv1.classAttrs ++ Base.classAttrs) "_run_command"
      = .error .attributeError ∧
    "_Base__set_filepath" ∈ Base.classAttrs := by
  refine ⟨rfl, rfl, rfl, by decide⟩

/-- Claim C10: on a freshly constructed plugin no `_rate` attribute exists,
so reading the `rate` property raises `AttributeError`, and `run_dataset`
fails at its very first step — joining the experiment root with
`self._rate` — with the same `AttributeError`. -/
theorem unset_rate_raises_attribute_error (cfg : AlgsCfg) (g : Bool)
    (d : PyPath) :
    Base.rateGet (Base.init cfg g) = .error .attributeError ∧
    Base.run_dataset_expDir (Base.init cfg g) d = .error .attributeError :=
  ⟨rfl, rfl⟩
